import Mathlib

/-!
# Verification of the go_licenser library core (licenser.go)

A shallow embedding of the license signing / validation engine of the
`go_licenser` Go library, together with theorems settling the frozen claims
about its behaviour.

Modelling conventions:

* Go `int64` timestamps become `Int`; no arithmetic is performed on them in
  the source (only comparisons), so no wrap-around modelling is needed.
* The wall clock (`time.Now().Unix()`) is passed explicitly as a `now : Int`
  parameter to every function that reads it.
* External cryptographic primitives (`crypto/sha256`, `crypto/rsa`,
  `encoding/base64`, `encoding/json`, `encoding/pem`, `crypto/x509`) are
  modelled as ideal primitives: serialization is a deterministic injective
  encoding (the identity on the license value), the digest is an ideal
  collision-free hash, an RSA signature blob records the signing key id and
  the digest it covers, and verification accepts exactly a blob made by the
  matching private key over the same digest.  This is the standard ideal
  model of a correct signature scheme; the claims are about the library's
  use of these primitives, not about RSA itself.
* Go `nil` pointers become `Option`; a function that dereferences a possibly
  nil pointer (a runtime panic in Go) returns `none` in that case.
* Go strings holding binary-ish payloads (base64 signatures, PEM blocks)
  are modelled by small inductives that partition the string universe into
  "decodes to this payload" and "fails to decode": `SigString` and `PEMText`.
* File IO is modelled by an explicit association list from path to PEM
  contents, and `rsa.GenerateKey`'s randomness by an explicit generator
  function `gen : Nat → PrivateKey` mapping the requested key size to the
  fresh key.
-/

namespace Licenser

/-! ## Data model (structs of licenser.go)

Go `map[string]T` fields are modelled as association lists `List (String × T)`;
`json.Marshal` serializes Go maps with sorted keys, so serialization of a
fixed value is deterministic either way, which is all the source relies on. -/

/-- `Service` represents a licensed service. -/
structure Service where
  ID : String := ""
  Name : String := ""
  Description : String := ""
  Metadata : List (String × String) := []
deriving DecidableEq

/-- `License` contains core license information. -/
structure License where
  Customer : String := ""
  AppID : String := ""
  Services : List Service := []
  Limits : List (String × Int) := []
  Features : List (String × Bool) := []
  IssuedAt : Int := 0
  ExpiresAt : Int := 0
  Metadata : List (String × String) := []
  Version : String := ""
  Environment : String := ""
deriving DecidableEq

/-! ## Ideal models of the external crypto / encoding primitives -/

/-- An RSA private key, identified by an abstract key id (the model of the
underlying modulus/exponent material). -/
structure PrivateKey where
  id : Nat
deriving DecidableEq

/-- An RSA public key, identified by the same abstract key id as the private
key it belongs to. -/
structure PublicKey where
  id : Nat
deriving DecidableEq

/-- `&privateKey.PublicKey`: the public half of a private key. -/
def PrivateKey.publicKey (sk : PrivateKey) : PublicKey := ⟨sk.id⟩

/-- The byte string produced by `json.Marshal` of a `License`.  Modelled as
the license value itself: a deterministic, injective canonical encoding. -/
abbrev MarshalledData := License

/-- `json.Marshal` on a `License`: every field type of `License` is
JSON-marshalable, so the Go call never fails; the model keeps the `error`
slot of the Go signature but always succeeds. -/
def jsonMarshal (l : License) : Except String MarshalledData := .ok l

/-- The output of `sha256.Sum256`.  An ideal collision-free digest is an
injective function of the input; the identity is the strongest such model. -/
abbrev Digest := MarshalledData

/-- `sha256.Sum256`, as an ideal (injective, collision-free) digest. -/
def sha256Sum (data : MarshalledData) : Digest := data

/-- The decoded bytes of an RSA PKCS#1 v1.5 signature: in the ideal model a
valid blob records which private key produced it and the digest it covers. -/
structure RSASignature where
  keyId : Nat
  digest : Digest
deriving DecidableEq

/-- `rsa.SignPKCS1v15` over an already-hashed message (ideal model). -/
def rsaSignPKCS1v15 (sk : PrivateKey) (hashed : Digest) : RSASignature :=
  ⟨sk.id, hashed⟩

/-- The errors `Manager.verifySignature` can produce internally. -/
inductive VerifyError where
  /-- `ErrInvalidSignature`, returned when base64 decoding fails. -/
  | invalidSignature
  /-- The error returned by `rsa.VerifyPKCS1v15` on a non-matching blob. -/
  | rsaVerificationError
deriving DecidableEq

/-- `rsa.VerifyPKCS1v15` (ideal model): succeeds exactly when the blob was
produced by the private key matching `pub` over the digest `hashed`. -/
def rsaVerifyPKCS1v15 (pub : PublicKey) (hashed : Digest) (sig : RSASignature) :
    Except VerifyError Unit :=
  if sig.keyId = pub.id ∧ sig.digest = hashed then .ok () else .error .rsaVerificationError

/-- Model of a Go string that may hold a base64-encoded signature: `sigText s`
is the base64 encoding of the blob `s`; `junk t` is any other string — one on
which `base64.StdEncoding.DecodeString` fails, or whose decoded bytes are not
a well-formed signature blob. -/
inductive SigString where
  | sigText : RSASignature → SigString
  | junk : String → SigString
deriving DecidableEq

/-- `base64.StdEncoding.EncodeToString` of a signature blob. -/
def base64Encode (sig : RSASignature) : SigString := .sigText sig

/-- `base64.StdEncoding.DecodeString` on a possible signature string. -/
def base64Decode : SigString → Option RSASignature
  | .sigText sig => some sig
  | .junk _ => none

/-! ## PEM / x509 model -/

/-- A parsed PKIX public key: `x509.ParsePKIXPublicKey` can return keys of
algorithms other than RSA, which the source rejects by type assertion. -/
inductive ParsedPub where
  | rsa : PublicKey → ParsedPub
  | otherAlgo : Nat → ParsedPub
deriving DecidableEq

/-- The DER bytes inside a PEM block: a PKCS#1 RSA private key, a PKIX
public key of some algorithm, or bytes neither x509 parser accepts. -/
inductive DERBytes where
  | pkcs1Priv : PrivateKey → DERBytes
  | pkixPub : ParsedPub → DERBytes
  | garbage : String → DERBytes
deriving DecidableEq

/-- Model of a Go string that may contain a PEM block: `block b` is a string
in which `pem.Decode` finds a block with DER contents `b`; `noPem s` is any
string in which `pem.Decode` finds no block at all. -/
inductive PEMText where
  | block : DERBytes → PEMText
  | noPem : String → PEMText
deriving DecidableEq

/-- `pem.Decode`: returns the block's contents, or `none` when the input
holds no PEM block.  The source never inspects the block type string. -/
def pemDecode : PEMText → Option DERBytes
  | .block b => some b
  | .noPem _ => none

/-- The error values of licenser.go: the package-level sentinel errors, plus
`wrapped` for `fmt.Errorf("...: %w", err)` chains and `external` for errors
produced by the standard library (x509 parsers, os file operations). -/
inductive LicenserError where
  | invalidPrivateKey
  | invalidPublicKey
  | noPublicKey
  | licenseExpired
  | invalidSignature
  | signatureVerification
  | generatorModeRequired
  | customerRequired
  | appIDRequired
  | noServicesAllowed
  | wrapped : String → LicenserError → LicenserError
  | external : String → LicenserError
deriving DecidableEq

/-- `x509.ParsePKCS1PrivateKey`: accepts exactly PKCS#1 RSA private key DER;
on anything else it returns its own parse error (not a licenser sentinel). -/
def x509ParsePKCS1PrivateKey : DERBytes → Except LicenserError PrivateKey
  | .pkcs1Priv sk => .ok sk
  | _ => .error (.external "x509: failed to parse private key")

/-- `x509.ParsePKIXPublicKey`: accepts exactly PKIX public key DER (of any
algorithm); on anything else it returns its own parse error. -/
def x509ParsePKIXPublicKey : DERBytes → Except LicenserError ParsedPub
  | .pkixPub p => .ok p
  | _ => .error (.external "x509: failed to parse public key")

/-- `x509.MarshalPKCS1PrivateKey` dereferences the key; on a nil key the Go
runtime panics, modelled by `none`. -/
def x509MarshalPKCS1PrivateKey : Option PrivateKey → Option DERBytes
  | none => none
  | some sk => some (.pkcs1Priv sk)

/-- `x509.MarshalPKIXPublicKey` on a valid RSA public key (never fails). -/
def x509MarshalPKIXPublicKey (pk : PublicKey) : DERBytes := .pkixPub (.rsa pk)

/-- `pem.EncodeToMemory` of a block. -/
def pemEncodeToMemory (b : DERBytes) : PEMText := .block b

/-! ## File system model -/

/-- The file system as seen by the key-loading code: path ↦ PEM contents. -/
abbrev KeyFS := List (String × PEMText)

/-- `os.ReadFile`: the contents at the path, or an OS error when absent. -/
def osReadFile (fs : KeyFS) (path : String) : Except LicenserError PEMText :=
  match fs.lookup path with
  | some contents => .ok contents
  | none => .error (.external "file not found")

/-- `os.WriteFile`, modelled as a whole-file replace that always succeeds. -/
def osWriteFile (fs : KeyFS) (path : String) (contents : PEMText) : KeyFS :=
  (path, contents) :: fs

/-! ## Remaining structs -/

/-- `SignedLicense` represents a complete signed license. -/
structure SignedLicense where
  Data : License
  Signature : SigString
  KeyID : String := ""
  Algorithm : String := ""
  CreatedAt : Int := 0
deriving DecidableEq

/-- `Config` holds configuration for the license manager.  A `none` field
models the Go empty string, which the source treats as "not supplied". -/
structure Config where
  PrivateKeyPath : Option String := none
  PrivateKeyPEM : Option PEMText := none
  PublicKeyPath : Option String := none
  PublicKeyPEM : Option PEMText := none
  KeySize : Nat := 0
  GeneratorMode : Bool := false
deriving DecidableEq

/-- `ValidationResult` contains the result of license validation. -/
structure ValidationResult where
  Valid : Bool
  Errors : List String := []
  Warnings : List String := []
deriving DecidableEq

/-- `Manager` handles license generation and validation.  `NewManager`
rejects any configuration that leaves the public key nil, so a constructed
manager always holds a public key; the private key pointer may be nil. -/
structure Manager where
  privateKey : Option PrivateKey
  publicKey : PublicKey
  config : Config
deriving DecidableEq

/-- Constant `DefaultKeySize`. -/
def DefaultKeySize : Nat := 2048

/-- Constant `StatusActive`. -/
def StatusActive : String := "active"

/-- Constant `StatusExpired`. -/
def StatusExpired : String := "expired"

/-! ## Key parsing / loading (helper functions of licenser.go) -/

/-- `parsePrivateKeyFromPEM`: `ErrInvalidPrivateKey` when no PEM block is
found; otherwise whatever `x509.ParsePKCS1PrivateKey` returns. -/
def parsePrivateKeyFromPEM (pemData : PEMText) : Except LicenserError PrivateKey :=
  match pemDecode pemData with
  | none => .error .invalidPrivateKey
  | some block => x509ParsePKCS1PrivateKey block

/-- `parsePublicKeyFromPEM`: `ErrInvalidPublicKey` when no PEM block is found
or when the parsed PKIX key is not RSA; x509's own error when PKIX parsing
fails. -/
def parsePublicKeyFromPEM (pemData : PEMText) : Except LicenserError PublicKey :=
  match pemDecode pemData with
  | none => .error .invalidPublicKey
  | some block =>
    match x509ParsePKIXPublicKey block with
    | .error e => .error e
    | .ok (.rsa pk) => .ok pk
    | .ok (.otherAlgo _) => .error .invalidPublicKey

/-- `loadPrivateKeyFromFile`. -/
def loadPrivateKeyFromFile (fs : KeyFS) (filePath : String) :
    Except LicenserError PrivateKey :=
  match osReadFile fs filePath with
  | .error e => .error e
  | .ok data => parsePrivateKeyFromPEM data

/-- `loadPublicKeyFromFile`. -/
def loadPublicKeyFromFile (fs : KeyFS) (filePath : String) :
    Except LicenserError PublicKey :=
  match osReadFile fs filePath with
  | .error e => .error e
  | .ok data => parsePublicKeyFromPEM data

/-! ## NewManager -/

/-- `NewManager` creates a new license manager.  `fs` models the file system
and `gen` the fresh-key source of `rsa.GenerateKey` (a function of the
requested key size).  Mirrors the Go control flow: default the key size,
resolve the private key in generator mode (PEM text, else file path, else
fresh generation) deriving the public key from it, then let a separately
supplied public key (PEM text, else file path) override, and fail with
`ErrNoPublicKey` when no public key resulted. -/
def NewManager (config : Config) (fs : KeyFS) (gen : Nat → PrivateKey) :
    Except LicenserError Manager :=
  let keySize := if config.KeySize = 0 then DefaultKeySize else config.KeySize
  let storedConfig := { config with KeySize := keySize }
  let privStep : Except LicenserError (Option PrivateKey) :=
    if config.GeneratorMode then
      match (match config.PrivateKeyPEM with
             | some pemText => parsePrivateKeyFromPEM pemText
             | none =>
               match config.PrivateKeyPath with
               | some path => loadPrivateKeyFromFile fs path
               | none => .ok (gen keySize)) with
      | .error e => .error (.wrapped "failed to setup private key" e)
      | .ok sk => .ok (some sk)
    else .ok none
  match privStep with
  | .error e => .error e
  | .ok privOpt =>
    let pubFromPriv : Option PublicKey := privOpt.map PrivateKey.publicKey
    let pubStep : Except LicenserError (Option PublicKey) :=
      match config.PublicKeyPEM with
      | some pemText =>
        match parsePublicKeyFromPEM pemText with
        | .error e => .error (.wrapped "failed to parse public key" e)
        | .ok pk => .ok (some pk)
      | none =>
        match config.PublicKeyPath with
        | some path =>
          match loadPublicKeyFromFile fs path with
          | .error e => .error (.wrapped "failed to load public key" e)
          | .ok pk => .ok (some pk)
        | none => .ok pubFromPriv
    match pubStep with
    | .error e => .error e
    | .ok none => .error .noPublicKey
    | .ok (some pk) => .ok { privateKey := privOpt, publicKey := pk, config := storedConfig }

/-! ## Signing and verification helpers -/

/-- `Manager.signData`: sha256 the data, sign with the private key, base64
encode.  The Go call dereferences `m.privateKey` inside `rsa.SignPKCS1v15`,
panicking on nil, modelled by `none`; with a key present the call cannot
fail on a 32-byte digest. -/
def Manager.signData (m : Manager) (data : MarshalledData) : Option SigString :=
  match m.privateKey with
  | none => none
  | some sk => some (base64Encode (rsaSignPKCS1v15 sk (sha256Sum data)))

/-- `Manager.verifySignature`: base64 decode (failure → `ErrInvalidSignature`),
sha256 the data, and check via `rsa.VerifyPKCS1v15`. -/
def Manager.verifySignature (m : Manager) (data : MarshalledData)
    (signatureStr : SigString) : Except VerifyError Unit :=
  match base64Decode signatureStr with
  | none => .error .invalidSignature
  | some signature => rsaVerifyPKCS1v15 m.publicKey (sha256Sum data) signature

/-! ## GenerateLicense and ValidateLicense -/

/-- `Manager.GenerateLicense` creates a signed license.  Go passes
`*License` and writes `IssuedAt` through the pointer when it was 0; the
model returns the (possibly updated) pointee next to the result.  The outer
`Option` models the runtime panic when the private key is nil (unreachable
for managers built by `NewManager` in generator mode).  Both `time.Now()`
reads (issued-at stamping and `CreatedAt`) are modelled by the same `now`. -/
def Manager.GenerateLicense (m : Manager) (license : License) (now : Int) :
    Option (Except LicenserError SignedLicense × License) :=
  if !m.config.GeneratorMode then
    some (.error .generatorModeRequired, license)
  else if license.Customer = "" then
    some (.error .customerRequired, license)
  else if license.AppID = "" then
    some (.error .appIDRequired, license)
  else if license.Services.length = 0 then
    some (.error .noServicesAllowed, license)
  else
    let license := if license.IssuedAt = 0 then { license with IssuedAt := now } else license
    match jsonMarshal license with
    | .error e => some (.error (.wrapped "failed to marshal license" (.external e)), license)
    | .ok data =>
      match m.signData data with
      | none => none
      | some signature =>
        some (.ok { Data := license
                    Signature := signature
                    CreatedAt := now
                    Algorithm := "RS256" }, license)

/-- `Manager.ValidateLicense` validates a signed license: marshal the data
(an early return on failure, unreachable since marshalling a `License`
cannot fail), then accumulate one error per failed check — signature,
expiry, customer, app ID, services — without short-circuiting. -/
def Manager.ValidateLicense (m : Manager) (signedLicense : SignedLicense) (now : Int) :
    ValidationResult :=
  let result : ValidationResult := { Valid := true }
  match jsonMarshal signedLicense.Data with
  | .error _ =>
    { result with Valid := false, Errors := result.Errors ++ ["failed to marshal license data"] }
  | .ok data =>
    let result :=
      match m.verifySignature data signedLicense.Signature with
      | .error _ =>
        { result with Valid := false, Errors := result.Errors ++ ["signature verification failed"] }
      | .ok _ => result
    let result :=
      if 0 < signedLicense.Data.ExpiresAt ∧ signedLicense.Data.ExpiresAt < now then
        { result with Valid := false, Errors := result.Errors ++ ["license has expired"] }
      else result
    let result :=
      if signedLicense.Data.Customer = "" then
        { result with Valid := false, Errors := result.Errors ++ ["customer is required"] }
      else result
    let result :=
      if signedLicense.Data.AppID = "" then
        { result with Valid := false, Errors := result.Errors ++ ["app ID is required"] }
      else result
    let result :=
      if signedLicense.Data.Services.length = 0 then
        { result with Valid := false, Errors := result.Errors ++ ["at least one service is required"] }
      else result
    result

/-! ## Expiry queries and status -/

/-- `Manager.IsExpired`. -/
def Manager.IsExpired (m : Manager) (license : License) (now : Int) : Bool :=
  decide (0 < license.ExpiresAt ∧ license.ExpiresAt < now)

/-- `Manager.IsActive`. -/
def Manager.IsActive (m : Manager) (license : License) (now : Int) : Bool :=
  !m.IsExpired license now

/-- `GetLicenseStatus` returns the status of a license. -/
def GetLicenseStatus (license : License) (now : Int) : String :=
  if license.ExpiresAt = 0 then StatusActive
  else if license.ExpiresAt < now then StatusExpired
  else StatusActive

/-! ## Key export -/

/-- `Manager.ExportPrivateKey`: marshal the private key (panics on nil,
hence the `Option`) and PEM-encode it. -/
def Manager.ExportPrivateKey (m : Manager) : Option PEMText :=
  (x509MarshalPKCS1PrivateKey m.privateKey).map pemEncodeToMemory

/-- `Manager.ExportPublicKey` (total: the held public key always marshals). -/
def Manager.ExportPublicKey (m : Manager) : PEMText :=
  pemEncodeToMemory (x509MarshalPKIXPublicKey m.publicKey)

/-- `Manager.ExportKeys` returns both keys as PEM; the Go error slot is
always nil, but the call panics on a nil private key (the `Option`). -/
def Manager.ExportKeys (m : Manager) : Option (PEMText × PEMText) :=
  match m.ExportPrivateKey with
  | none => none
  | some priv => some (priv, m.ExportPublicKey)

/-- `Manager.SaveKeys` writes both keys to files; it calls
`ExportPrivateKey` first, so on a nil private key it panics before any
write (the `Option`). -/
def Manager.SaveKeys (m : Manager) (fs : KeyFS) (privateKeyPath publicKeyPath : String) :
    Option KeyFS :=
  match m.ExportPrivateKey with
  | none => none
  | some privPem =>
    let fs := osWriteFile fs privateKeyPath privPem
    some (osWriteFile fs publicKeyPath m.ExportPublicKey)

/-! ## Round-trip composition (for the claims about generate-then-validate) -/

/-- Generate a license and immediately validate the result with the same
manager at the same instant; `none` when generation panicked or failed. -/
def genThenValidate (m : Manager) (license : License) (now : Int) :
    Option ValidationResult :=
  match m.GenerateLicense license now with
  | some (.ok sl, _) => some (m.ValidateLicense sl now)
  | _ => none

/-- The issued-at stamping step of `GenerateLicense` (the write through the
caller's pointer): set `IssuedAt` to `now` when it was 0. -/
def stampIssuedAt (l : License) (now : Int) : License :=
  if l.IssuedAt = 0 then { l with IssuedAt := now } else l

/-! ## Concrete fixtures used by witnesses and counterexamples -/

/-- A concrete service. -/
def svc0 : Service := { ID := "web-api", Name := "Web API" }

/-- A concrete fresh-key source for `NewManager`: the key id records the
requested size, so resolution-order theorems can observe the size used. -/
def gen0 : Nat → PrivateKey := fun n => ⟨n⟩

/-- A concrete private key. -/
def key1 : PrivateKey := ⟨1⟩

/-- A generator-mode manager holding `key1` and its derived public key. -/
def mgr0 : Manager :=
  { privateKey := some key1
    publicKey := key1.publicKey
    config := { GeneratorMode := true, KeySize := 2048 } }

/-- A validator-only manager (no private key). -/
def mgrVal : Manager :=
  { privateKey := none
    publicKey := ⟨7⟩
    config := { PublicKeyPEM := some (.block (.pkixPub (.rsa ⟨7⟩))), KeySize := 2048 } }

/-- A complete, perpetual license (IssuedAt unset). -/
def lic0 : License := { Customer := "Acme", AppID := "acme-app", Services := [svc0] }

/-- A complete license whose expiry (1) is already past at time 2. -/
def licExp : License :=
  { Customer := "Acme", AppID := "acme-app", Services := [svc0], IssuedAt := 5, ExpiresAt := 1 }

/-- A complete license with a strictly negative expiry timestamp. -/
def licNeg : License :=
  { Customer := "Acme", AppID := "acme-app", Services := [svc0], IssuedAt := 5, ExpiresAt := -5 }

/-- A signed license whose signature string fails base64 decoding. -/
def slJunk : SignedLicense := { Data := lic0, Signature := .junk "%%%" }

/-- A signed license with the same data whose signature decodes but was made
by a different key, so `rsa.VerifyPKCS1v15` rejects it. -/
def slBad : SignedLicense := { Data := lic0, Signature := .sigText ⟨99, lic0⟩ }

/-- A generator-mode configuration with a separately supplied public key. -/
def cfgPub7 : Config :=
  { GeneratorMode := true, PublicKeyPEM := some (.block (.pkixPub (.rsa ⟨7⟩))) }

/-- The manager `NewManager cfgPub7 [] gen0` constructs: fresh private key
at the defaulted size, and the overriding public key 7. -/
def mgrPub7 : Manager :=
  { privateKey := some (gen0 2048)
    publicKey := ⟨7⟩
    config := { cfgPub7 with KeySize := 2048 } }

/-- A generator-mode configuration supplying the public key via file path. -/
def cfgPubPath : Config := { GeneratorMode := true, PublicKeyPath := some "pub.pem" }

/-- A file system holding a PKIX RSA public key PEM at that path. -/
def fsPub : KeyFS := [("pub.pem", .block (.pkixPub (.rsa ⟨8⟩)))]

/-- The manager `NewManager cfgPubPath fsPub gen0` constructs: fresh private
key at the defaulted size, and the public key 8 loaded from the file. -/
def mgrPubPath : Manager :=
  { privateKey := some (gen0 2048)
    publicKey := ⟨8⟩
    config := { cfgPubPath with KeySize := 2048 } }

/-! ## Characterization of ValidateLicense -/

/-- The boolean outcome of the signature check of `ValidateLicense` on a
signed license (marshalling its data never fails, so the check always runs). -/
def Manager.signatureOk (m : Manager) (sl : SignedLicense) : Bool :=
  match m.verifySignature sl.Data sl.Signature with
  | .ok _ => true
  | .error _ => false

/-- The error strings the five checks of `ValidateLicense` contribute, in
their evaluation order (signature, expiry, customer, app ID, services). -/
def validationErrors (m : Manager) (sl : SignedLicense) (now : Int) : List String :=
  (if m.signatureOk sl then [] else ["signature verification failed"]) ++
  (if 0 < sl.Data.ExpiresAt ∧ sl.Data.ExpiresAt < now then ["license has expired"] else []) ++
  (if sl.Data.Customer = "" then ["customer is required"] else []) ++
  (if sl.Data.AppID = "" then ["app ID is required"] else []) ++
  (if sl.Data.Services.length = 0 then ["at least one service is required"] else [])

/-- `ValidateLicense` in closed form: the error list is the in-order
concatenation of the five checks' contributions, validity is emptiness of
that list, and warnings are never produced. -/
theorem validateLicense_eq (m : Manager) (sl : SignedLicense) (now : Int) :
    m.ValidateLicense sl now =
      { Valid := (validationErrors m sl now).isEmpty
        Errors := validationErrors m sl now
        Warnings := [] } := by
  unfold Manager.ValidateLicense validationErrors jsonMarshal
  cases hv : m.verifySignature sl.Data sl.Signature <;>
    by_cases h2 : 0 < sl.Data.ExpiresAt ∧ sl.Data.ExpiresAt < now <;>
    by_cases h3 : sl.Data.Customer = "" <;>
    by_cases h4 : sl.Data.AppID = "" <;>
    by_cases h5 : sl.Data.Services.length = 0 <;>
    simp [Manager.signatureOk, hv, h2, h3, h4, h5]

/-- Membership of the expiry error in the accumulated error list is exactly
the expiry condition (no other check contributes that string). -/
theorem mem_validationErrors_expired (m : Manager) (sl : SignedLicense) (now : Int) :
    "license has expired" ∈ validationErrors m sl now ↔
      0 < sl.Data.ExpiresAt ∧ sl.Data.ExpiresAt < now := by
  unfold validationErrors
  by_cases h1 : m.signatureOk sl <;>
    by_cases h2 : 0 < sl.Data.ExpiresAt ∧ sl.Data.ExpiresAt < now <;>
    by_cases h3 : sl.Data.Customer = "" <;>
    by_cases h4 : sl.Data.AppID = "" <;>
    by_cases h5 : sl.Data.Services.length = 0 <;>
    simp [h1, h2, h3, h4, h5]

/-- The signature-failure string occurs in the accumulated error list once
when the signature check fails and never otherwise. -/
theorem count_validationErrors_sigfail (m : Manager) (sl : SignedLicense) (now : Int) :
    (validationErrors m sl now).count "signature verification failed" =
      (if m.signatureOk sl then 0 else 1) := by
  unfold validationErrors
  by_cases h1 : m.signatureOk sl <;>
    by_cases h2 : 0 < sl.Data.ExpiresAt ∧ sl.Data.ExpiresAt < now <;>
    by_cases h3 : sl.Data.Customer = "" <;>
    by_cases h4 : sl.Data.AppID = "" <;>
    by_cases h5 : sl.Data.Services.length = 0 <;>
    simp [h1, h2, h3, h4, h5, List.count_append, List.count_singleton]

/-- `GenerateLicense` in closed form: an if-chain of the mode and
required-field checks in source order, then the success record built over
the issued-at-stamped license (`none` models the nil-private-key panic). -/
theorem generateLicense_eq (m : Manager) (l : License) (now : Int) :
    m.GenerateLicense l now =
      if m.config.GeneratorMode = false then some (.error .generatorModeRequired, l)
      else if l.Customer = "" then some (.error .customerRequired, l)
      else if l.AppID = "" then some (.error .appIDRequired, l)
      else if l.Services.length = 0 then some (.error .noServicesAllowed, l)
      else
        match m.privateKey with
        | none => none
        | some sk =>
          some (.ok { Data := stampIssuedAt l now
                      Signature := base64Encode (rsaSignPKCS1v15 sk (sha256Sum (stampIssuedAt l now)))
                      CreatedAt := now
                      Algorithm := "RS256" }, stampIssuedAt l now) := by
  unfold Manager.GenerateLicense stampIssuedAt
  by_cases hm : m.config.GeneratorMode <;>
    by_cases hc : l.Customer = "" <;>
    by_cases ha : l.AppID = "" <;>
    by_cases hs : l.Services.length = 0 <;>
    cases hk : m.privateKey <;>
    by_cases hi : l.IssuedAt = 0 <;>
    simp [hm, hc, ha, hs, hk, hi, jsonMarshal, Manager.signData]

/-- Stamping only touches `IssuedAt`. -/
theorem stampIssuedAt_fields (l : License) (now : Int) :
    (stampIssuedAt l now).Customer = l.Customer ∧
    (stampIssuedAt l now).AppID = l.AppID ∧
    (stampIssuedAt l now).Services = l.Services ∧
    (stampIssuedAt l now).Limits = l.Limits ∧
    (stampIssuedAt l now).Features = l.Features ∧
    (stampIssuedAt l now).ExpiresAt = l.ExpiresAt ∧
    (stampIssuedAt l now).Metadata = l.Metadata ∧
    (stampIssuedAt l now).Version = l.Version ∧
    (stampIssuedAt l now).Environment = l.Environment := by
  unfold stampIssuedAt
  split <;> simp

/-! ## Claim C2 -/

/-- Claim C2: for every signed license, `ValidateLicense` runs all five
checks (signature, expiry, customer, app ID, services) without
short-circuiting, accumulating one error string per failed check in that
evaluation order; the result is valid iff the accumulated error list is
empty, and the warnings list is never populated. -/
theorem validateLicense_accumulates_all_checks (m : Manager) (sl : SignedLicense) (now : Int) :
    (m.ValidateLicense sl now).Errors =
      (if m.signatureOk sl then [] else ["signature verification failed"]) ++
      (if 0 < sl.Data.ExpiresAt ∧ sl.Data.ExpiresAt < now then ["license has expired"] else []) ++
      (if sl.Data.Customer = "" then ["customer is required"] else []) ++
      (if sl.Data.AppID = "" then ["app ID is required"] else []) ++
      (if sl.Data.Services.length = 0 then ["at least one service is required"] else []) ∧
    ((m.ValidateLicense sl now).Valid = true ↔ (m.ValidateLicense sl now).Errors = []) ∧
    (m.ValidateLicense sl now).Warnings = [] := by
  rw [validateLicense_eq]
  refine ⟨rfl, ?_, rfl⟩
  simp [List.isEmpty_iff]

/-! ## Claim C4 -/

/-- Claim C4: a license is flagged as expired — by `ValidateLicense`'s
expiry check and by `Manager.IsExpired` — iff `ExpiresAt > 0` and the
current time is strictly greater than `ExpiresAt`; in particular
`ExpiresAt = 0` is never expired however large `now` is, and
`ExpiresAt = now` is not expired. -/
theorem expiry_flagged_iff (m : Manager) (sl : SignedLicense) (now : Int) :
    (m.IsExpired sl.Data now = true ↔ 0 < sl.Data.ExpiresAt ∧ sl.Data.ExpiresAt < now) ∧
    ("license has expired" ∈ (m.ValidateLicense sl now).Errors ↔
      0 < sl.Data.ExpiresAt ∧ sl.Data.ExpiresAt < now) ∧
    (sl.Data.ExpiresAt = 0 → m.IsExpired sl.Data now = false) ∧
    (sl.Data.ExpiresAt = now → m.IsExpired sl.Data now = false) := by
  refine ⟨by simp [Manager.IsExpired], ?_, ?_, ?_⟩
  · rw [validateLicense_eq]
    exact mem_validationErrors_expired m sl now
  · intro h
    simp [Manager.IsExpired, h]
  · intro h
    simp [Manager.IsExpired, h]

/-- Witness for C4 at concrete inputs: a perpetual license (`ExpiresAt = 0`)
and an exactly-at-expiry license are not flagged expired. -/
theorem expiry_flagged_iff_witness :
    mgr0.IsExpired lic0 100 = false ∧
    mgr0.IsExpired licExp 1 = false ∧
    (mgr0.IsExpired licExp 2 = true ↔ 0 < licExp.ExpiresAt ∧ licExp.ExpiresAt < 2) := by
  refine ⟨?_, ?_, ?_⟩
  · exact (expiry_flagged_iff mgr0 { Data := lic0, Signature := .junk "x" } 100).2.2.1 rfl
  · exact (expiry_flagged_iff mgr0 { Data := licExp, Signature := .junk "x" } 1).2.2.2 rfl
  · exact (expiry_flagged_iff mgr0 { Data := licExp, Signature := .junk "x" } 2).1

/-! ## Claim C3 -/

/-- Claim C3: `GenerateLicense` on a non-generator manager fails with the
mode error regardless of content; on a generator manager it fails with a
distinct error per missing required field, checked in the order customer,
application ID, services; and it succeeds once all three are supplied. -/
theorem generateLicense_mode_and_required_fields (m : Manager) (l : License) (now : Int) :
    (m.config.GeneratorMode = false →
      m.GenerateLicense l now = some (.error .generatorModeRequired, l)) ∧
    (m.config.GeneratorMode = true → l.Customer = "" →
      m.GenerateLicense l now = some (.error .customerRequired, l)) ∧
    (m.config.GeneratorMode = true → l.Customer ≠ "" → l.AppID = "" →
      m.GenerateLicense l now = some (.error .appIDRequired, l)) ∧
    (m.config.GeneratorMode = true → l.Customer ≠ "" → l.AppID ≠ "" → l.Services = [] →
      m.GenerateLicense l now = some (.error .noServicesAllowed, l)) ∧
    (∀ sk, m.config.GeneratorMode = true → m.privateKey = some sk →
      l.Customer ≠ "" → l.AppID ≠ "" → l.Services ≠ [] →
      m.GenerateLicense l now =
        some (.ok { Data := stampIssuedAt l now
                    Signature := base64Encode (rsaSignPKCS1v15 sk (sha256Sum (stampIssuedAt l now)))
                    CreatedAt := now
                    Algorithm := "RS256" }, stampIssuedAt l now)) := by
  rw [generateLicense_eq]
  refine ⟨fun hm => by simp [hm], fun hm hc => by simp [hm, hc],
    fun hm hc ha => by simp [hm, hc, ha], fun hm hc ha hs => by simp [hm, hc, ha, hs],
    fun sk hm hk hc ha hs => ?_⟩
  have hs0 : ¬l.Services.length = 0 := by simpa using hs
  simp [hm, hc, ha, hs0, hk]

/-- Witness for C3: the mode error on the validator-only manager, each of
the three field errors, and success with all fields supplied. -/
theorem generateLicense_mode_and_required_fields_witness :
    mgrVal.GenerateLicense lic0 5 = some (.error .generatorModeRequired, lic0) ∧
    mgr0.GenerateLicense { lic0 with Customer := "" } 5 =
      some (.error .customerRequired, { lic0 with Customer := "" }) ∧
    mgr0.GenerateLicense { lic0 with AppID := "" } 5 =
      some (.error .appIDRequired, { lic0 with AppID := "" }) ∧
    mgr0.GenerateLicense { lic0 with Services := [] } 5 =
      some (.error .noServicesAllowed, { lic0 with Services := [] }) ∧
    mgr0.GenerateLicense lic0 5 =
      some (.ok { Data := stampIssuedAt lic0 5
                  Signature := base64Encode (rsaSignPKCS1v15 key1 (sha256Sum (stampIssuedAt lic0 5)))
                  CreatedAt := 5
                  Algorithm := "RS256" }, stampIssuedAt lic0 5) := by
  refine ⟨(generateLicense_mode_and_required_fields mgrVal lic0 5).1 rfl,
    (generateLicense_mode_and_required_fields mgr0 _ 5).2.1 rfl rfl,
    (generateLicense_mode_and_required_fields mgr0 _ 5).2.2.1 rfl (by decide) rfl,
    (generateLicense_mode_and_required_fields mgr0 _ 5).2.2.2.1 rfl (by decide) (by decide) rfl,
    (generateLicense_mode_and_required_fields mgr0 lic0 5).2.2.2.2 key1 rfl rfl
      (by decide) (by decide) (by decide)⟩

/-! ## Claim C1 (corrected) -/

/-- Claim C1, amended: generating a license with non-empty customer, app ID
and services on a generator-mode manager whose verification key is the one
derived from its private key, and validating the result with the same
manager at the same instant, yields `Valid = true` with no errors —
provided the license is not already expired at that instant.  (The original
claim omitted the expiry proviso; see the counterexample.) -/
theorem generate_then_validate_valid (m : Manager) (sk : PrivateKey) (l : License) (now : Int)
    (hmode : m.config.GeneratorMode = true)
    (hsk : m.privateKey = some sk)
    (hpk : m.publicKey = sk.publicKey)
    (hc : l.Customer ≠ "") (ha : l.AppID ≠ "") (hs : l.Services ≠ [])
    (hexp : ¬(0 < l.ExpiresAt ∧ l.ExpiresAt < now)) :
    genThenValidate m l now = some { Valid := true, Errors := [], Warnings := [] } := by
  have hs0 : ¬l.Services.length = 0 := by simpa using hs
  have hgen : m.GenerateLicense l now =
      some (.ok { Data := stampIssuedAt l now
                  Signature := base64Encode (rsaSignPKCS1v15 sk (sha256Sum (stampIssuedAt l now)))
                  CreatedAt := now
                  Algorithm := "RS256" }, stampIssuedAt l now) := by
    rw [generateLicense_eq, if_neg (by simp [hmode]), if_neg hc, if_neg ha, if_neg hs0, hsk]
  have hfields := stampIssuedAt_fields l now
  have hsig : Manager.signatureOk m
      { Data := stampIssuedAt l now
        Signature := base64Encode (rsaSignPKCS1v15 sk (sha256Sum (stampIssuedAt l now)))
        CreatedAt := now
        Algorithm := "RS256" } = true := by
    unfold Manager.signatureOk Manager.verifySignature base64Decode base64Encode
    simp [rsaVerifyPKCS1v15, rsaSignPKCS1v15, hpk, PrivateKey.publicKey]
  have herrs : validationErrors m
      { Data := stampIssuedAt l now
        Signature := base64Encode (rsaSignPKCS1v15 sk (sha256Sum (stampIssuedAt l now)))
        CreatedAt := now
        Algorithm := "RS256" } now = [] := by
    unfold validationErrors
    rw [hsig]
    simp only [if_true]
    rw [if_neg (by rw [hfields.2.2.2.2.2.1]; exact hexp),
      if_neg (by rw [hfields.1]; exact hc),
      if_neg (by rw [hfields.2.1]; exact ha),
      if_neg (by rw [hfields.2.2.1]; exact hs0)]
    simp
  unfold genThenValidate
  rw [hgen]
  show some (m.ValidateLicense
      { Data := stampIssuedAt l now
        Signature := base64Encode (rsaSignPKCS1v15 sk (sha256Sum (stampIssuedAt l now)))
        CreatedAt := now
        Algorithm := "RS256" } now) = some { Valid := true, Errors := [], Warnings := [] }
  rw [validateLicense_eq, herrs]
  rfl

/-- Witness for C1 at a concrete input: a complete perpetual license. -/
theorem generate_then_validate_valid_witness :
    genThenValidate mgr0 lic0 5 = some { Valid := true, Errors := [], Warnings := [] } :=
  generate_then_validate_valid mgr0 key1 lic0 5 rfl rfl rfl
    (by decide) (by decide) (by decide) (by decide)

/-- Counterexample to C1 as frozen: `licExp` has non-empty customer, app ID
and services, generation succeeds, yet validating the generated license
with the same manager reports the expiry error — `Valid = false`, errors
non-empty (the license's `ExpiresAt = 1` is past at time 2). -/
theorem generate_then_validate_not_always_valid :
    licExp.Customer ≠ "" ∧ licExp.AppID ≠ "" ∧ licExp.Services ≠ [] ∧
    genThenValidate mgr0 licExp 2 =
      some { Valid := false, Errors := ["license has expired"], Warnings := [] } := by
  decide

/-! ## Claim C5 (corrected) -/

/-- Claim C5, amended: `GenerateLicense`'s only effect on the caller's
`License` is stamping `IssuedAt` with the current time when the call
succeeds and `IssuedAt` was 0; in every error case, and whenever `IssuedAt`
was already set, the record is returned unchanged, and every field other
than `IssuedAt` is always unchanged.  (`ValidateLicense` performs no writes
through its argument and is embedded as a pure function; the original
claim's assertion that `IssuedAt` is never changed is refuted by the
counterexample.) -/
theorem generateLicense_frame (m : Manager) (l : License) (now : Int)
    (r : Except LicenserError SignedLicense) (l' : License)
    (h : m.GenerateLicense l now = some (r, l')) :
    (l.IssuedAt ≠ 0 → l' = l) ∧
    (∀ e, r = .error e → l' = l) ∧
    ((∀ e, r ≠ .error e) → l.IssuedAt = 0 → l' = { l with IssuedAt := now }) ∧
    l'.Customer = l.Customer ∧ l'.AppID = l.AppID ∧ l'.Services = l.Services ∧
    l'.Limits = l.Limits ∧ l'.Features = l.Features ∧ l'.ExpiresAt = l.ExpiresAt ∧
    l'.Metadata = l.Metadata ∧ l'.Version = l.Version ∧ l'.Environment = l.Environment := by
  rw [generateLicense_eq] at h
  by_cases hm : m.config.GeneratorMode = false
  · rw [if_pos hm] at h
    injection h with h
    obtain ⟨rfl, rfl⟩ := Prod.ext_iff.mp h
    exact ⟨fun _ => rfl, fun _ _ => rfl, fun habs _ => absurd rfl (habs _),
      rfl, rfl, rfl, rfl, rfl, rfl, rfl, rfl, rfl⟩
  · rw [if_neg hm] at h
    by_cases hc : l.Customer = ""
    · rw [if_pos hc] at h
      injection h with h
      obtain ⟨rfl, rfl⟩ := Prod.ext_iff.mp h
      exact ⟨fun _ => rfl, fun _ _ => rfl, fun habs _ => absurd rfl (habs _),
        rfl, rfl, rfl, rfl, rfl, rfl, rfl, rfl, rfl⟩
    · rw [if_neg hc] at h
      by_cases ha : l.AppID = ""
      · rw [if_pos ha] at h
        injection h with h
        obtain ⟨rfl, rfl⟩ := Prod.ext_iff.mp h
        exact ⟨fun _ => rfl, fun _ _ => rfl, fun habs _ => absurd rfl (habs _),
          rfl, rfl, rfl, rfl, rfl, rfl, rfl, rfl, rfl⟩
      · rw [if_neg ha] at h
        by_cases hs : l.Services.length = 0
        · rw [if_pos hs] at h
          injection h with h
          obtain ⟨rfl, rfl⟩ := Prod.ext_iff.mp h
          exact ⟨fun _ => rfl, fun _ _ => rfl, fun habs _ => absurd rfl (habs _),
            rfl, rfl, rfl, rfl, rfl, rfl, rfl, rfl, rfl⟩
        · rw [if_neg hs] at h
          cases hk : m.privateKey with
          | none => rw [hk] at h; exact absurd h (by simp)
          | some sk =>
            rw [hk] at h
            injection h with h
            obtain ⟨rfl, rfl⟩ := Prod.ext_iff.mp h
            have hfields := stampIssuedAt_fields l now
            refine ⟨?_, ?_, ?_, hfields.1, hfields.2.1, hfields.2.2.1, hfields.2.2.2.1,
              hfields.2.2.2.2.1, hfields.2.2.2.2.2.1, hfields.2.2.2.2.2.2.1,
              hfields.2.2.2.2.2.2.2.1, hfields.2.2.2.2.2.2.2.2⟩
            · intro hi
              unfold stampIssuedAt
              rw [if_neg hi]
            · intro e he
              exact absurd he (by simp)
            · intro _ hi
              unfold stampIssuedAt
              rw [if_pos hi]

/-- Witness for C5: on a license whose `IssuedAt` is already set (`licExp`),
a successful generation returns the caller's record unchanged. -/
theorem generateLicense_frame_witness :
    (mgr0.GenerateLicense licExp 7).map Prod.snd = some licExp := by
  have hgen : mgr0.GenerateLicense licExp 7 =
      some (.ok { Data := stampIssuedAt licExp 7
                  Signature := base64Encode (rsaSignPKCS1v15 key1 (sha256Sum (stampIssuedAt licExp 7)))
                  CreatedAt := 7
                  Algorithm := "RS256" }, stampIssuedAt licExp 7) := rfl
  have h := generateLicense_frame mgr0 licExp 7 _ _ hgen
  have hl : stampIssuedAt licExp 7 = licExp := h.1 (by decide)
  rw [hgen, hl]
  rfl

/-- Counterexample to C5 as frozen: generating `lic0` (whose `IssuedAt` is
0) succeeds and writes `IssuedAt = 42` through the caller's pointer, so the
caller's record is not left unchanged. -/
theorem generateLicense_mutates_issuedAt :
    lic0.IssuedAt = 0 ∧
    (mgr0.GenerateLicense lic0 42).map Prod.snd = some { lic0 with IssuedAt := 42 } ∧
    ({ lic0 with IssuedAt := 42 } : License) ≠ lic0 := by
  decide

/-! ## Claim C8 -/

/-- Claim C8: every verification mismatch — base64 decoding failure or
cryptographic rejection of the decoded blob — produces the same uniform
outcome: `ValidateLicense` records exactly the single error string
"signature verification failed", and two failing licenses over the same
data validate identically, so nothing distinguishes the failure modes. -/
theorem signature_failures_uniform (m : Manager) (sl₁ sl₂ : SignedLicense) (now : Int)
    (h₁ : m.signatureOk sl₁ = false) (h₂ : m.signatureOk sl₂ = false)
    (hd : sl₁.Data = sl₂.Data) :
    m.ValidateLicense sl₁ now = m.ValidateLicense sl₂ now ∧
    (m.ValidateLicense sl₁ now).Errors.count "signature verification failed" = 1 := by
  have he : validationErrors m sl₁ now = validationErrors m sl₂ now := by
    unfold validationErrors
    rw [hd, h₁, h₂]
  constructor
  · rw [validateLicense_eq, validateLicense_eq, he]
  · rw [validateLicense_eq]
    show (validationErrors m sl₁ now).count "signature verification failed" = 1
    rw [count_validationErrors_sigfail, h₁]
    rfl

/-- Witness for C8: a base64-decode failure (`slJunk`) and a wrong-key
rejection (`slBad`) over the same data yield identical results with the
single uniform error string. -/
theorem signature_failures_uniform_witness :
    mgr0.ValidateLicense slJunk 3 = mgr0.ValidateLicense slBad 3 ∧
    (mgr0.ValidateLicense slJunk 3).Errors.count "signature verification failed" = 1 :=
  signature_failures_uniform mgr0 slJunk slBad 3 rfl rfl rfl

/-! ## Claim C10 -/

/-- Claim C10: for a license with strictly negative `ExpiresAt` (at any
non-negative clock reading), `Manager.IsExpired` returns `false` and
`ValidateLicense` records no expiration error (the `> 0` guard treats any
non-positive expiry as perpetual), while `GetLicenseStatus` — which only
special-cases `ExpiresAt = 0` — returns the expired status string, so the
two expiry views disagree. -/
theorem negative_expiry_views_disagree (m : Manager) (sl : SignedLicense) (now : Int)
    (hneg : sl.Data.ExpiresAt < 0) (hnow : 0 ≤ now) :
    m.IsExpired sl.Data now = false ∧
    "license has expired" ∉ (m.ValidateLicense sl now).Errors ∧
    GetLicenseStatus sl.Data now = StatusExpired := by
  refine ⟨?_, ?_, ?_⟩
  · simp only [Manager.IsExpired, decide_eq_false_iff_not]
    rintro ⟨h, _⟩
    omega
  · rw [validateLicense_eq]
    show ¬("license has expired" ∈ validationErrors m sl now)
    rw [mem_validationErrors_expired]
    rintro ⟨h, _⟩
    omega
  · unfold GetLicenseStatus
    rw [if_neg (by omega), if_pos (by omega)]

/-- Witness for C10 at `ExpiresAt = -5`, `now = 100`. -/
theorem negative_expiry_views_disagree_witness :
    mgr0.IsExpired licNeg 100 = false ∧
    "license has expired" ∉ (mgr0.ValidateLicense { Data := licNeg, Signature := .junk "x" } 100).Errors ∧
    GetLicenseStatus licNeg 100 = StatusExpired :=
  negative_expiry_views_disagree mgr0 { Data := licNeg, Signature := .junk "x" } 100
    (by decide) (by decide)

/-! ## Claim C7 (corrected) -/

/-- Claim C7, amended: malformed PEM data (no decodable block) is reported
as the key-type-specific error — invalid-private-key for private inputs,
invalid-public-key for public inputs — and a PEM block that parses as a
PKIX key of a non-RSA algorithm is reported as invalid-public-key; but a
PEM block whose DER contents fail the respective x509 parser is reported
with the x509 parser's own error, not the key-type-specific kind.  (The
original claim asserted the distinct kind for every wrong-algorithm block;
see the counterexample.) -/
theorem pem_parse_error_kinds :
    (∀ s, parsePrivateKeyFromPEM (.noPem s) = .error .invalidPrivateKey) ∧
    (∀ s, parsePublicKeyFromPEM (.noPem s) = .error .invalidPublicKey) ∧
    (∀ a, parsePublicKeyFromPEM (.block (.pkixPub (.otherAlgo a))) = .error .invalidPublicKey) ∧
    (∀ b, (∀ sk, b ≠ DERBytes.pkcs1Priv sk) →
      parsePrivateKeyFromPEM (.block b) = .error (.external "x509: failed to parse private key")) ∧
    (∀ b, (∀ p, b ≠ DERBytes.pkixPub p) →
      parsePublicKeyFromPEM (.block b) = .error (.external "x509: failed to parse public key")) := by
  refine ⟨fun s => rfl, fun s => rfl, fun a => rfl, ?_, ?_⟩
  · intro b hb
    cases b with
    | pkcs1Priv sk => exact absurd rfl (hb sk)
    | pkixPub p => rfl
    | garbage s => rfl
  · intro b hb
    cases b with
    | pkixPub p => exact absurd rfl (hb p)
    | pkcs1Priv sk => rfl
    | garbage s => rfl

/-- Witness for C7 at concrete inputs of every kind. -/
theorem pem_parse_error_kinds_witness :
    parsePrivateKeyFromPEM (.noPem "junk") = .error .invalidPrivateKey ∧
    parsePublicKeyFromPEM (.noPem "junk") = .error .invalidPublicKey ∧
    parsePublicKeyFromPEM (.block (.pkixPub (.otherAlgo 3))) = .error .invalidPublicKey ∧
    parsePrivateKeyFromPEM (.block (.garbage "g")) =
      .error (.external "x509: failed to parse private key") ∧
    parsePublicKeyFromPEM (.block (.garbage "g")) =
      .error (.external "x509: failed to parse public key") :=
  ⟨pem_parse_error_kinds.1 "junk", pem_parse_error_kinds.2.1 "junk",
    pem_parse_error_kinds.2.2.1 3,
    pem_parse_error_kinds.2.2.2.1 _ (fun sk h => nomatch h),
    pem_parse_error_kinds.2.2.2.2 _ (fun p h => nomatch h)⟩

/-- Counterexample to C7 as frozen: a well-formed PEM block holding a PKIX
RSA public key fed to the private-key parser fails with the x509 parser's
generic error, not the distinct invalid-private-key error. -/
theorem pem_wrong_format_private_error_not_distinct :
    parsePrivateKeyFromPEM (.block (.pkixPub (.rsa ⟨5⟩))) =
      .error (.external "x509: failed to parse private key") ∧
    LicenserError.external "x509: failed to parse private key" ≠
      LicenserError.invalidPrivateKey :=
  ⟨rfl, by decide⟩

/-! ## Claim C6 -/

/-- Claim C6: in generator mode the private key is resolved from supplied
PEM text, else from a supplied file path, else by fresh generation at the
configured size (2048 when the configured size is 0), with the verification
public key derived from that private key; a separately supplied public key
(PEM text, or else a file path) overrides the derived one; and in any mode,
when no public key is available after resolution, construction fails with
the no-public-key error. -/
theorem newManager_key_resolution (cfg : Config) (fs : KeyFS) (gen : Nat → PrivateKey) :
    (∀ pemText sk, cfg.GeneratorMode = true → cfg.PrivateKeyPEM = some pemText →
      cfg.PublicKeyPEM = none → cfg.PublicKeyPath = none →
      parsePrivateKeyFromPEM pemText = .ok sk →
      (NewManager cfg fs gen).map Manager.privateKey = .ok (some sk) ∧
      (NewManager cfg fs gen).map Manager.publicKey = .ok sk.publicKey) ∧
    (∀ path sk, cfg.GeneratorMode = true → cfg.PrivateKeyPEM = none →
      cfg.PrivateKeyPath = some path → cfg.PublicKeyPEM = none → cfg.PublicKeyPath = none →
      loadPrivateKeyFromFile fs path = .ok sk →
      (NewManager cfg fs gen).map Manager.privateKey = .ok (some sk) ∧
      (NewManager cfg fs gen).map Manager.publicKey = .ok sk.publicKey) ∧
    (cfg.GeneratorMode = true → cfg.PrivateKeyPEM = none → cfg.PrivateKeyPath = none →
      cfg.PublicKeyPEM = none → cfg.PublicKeyPath = none →
      (NewManager cfg fs gen).map Manager.privateKey =
        .ok (some (gen (if cfg.KeySize = 0 then DefaultKeySize else cfg.KeySize))) ∧
      (NewManager cfg fs gen).map Manager.publicKey =
        .ok (gen (if cfg.KeySize = 0 then DefaultKeySize else cfg.KeySize)).publicKey) ∧
    (∀ m pemText pk, NewManager cfg fs gen = .ok m → cfg.PublicKeyPEM = some pemText →
      parsePublicKeyFromPEM pemText = .ok pk → m.publicKey = pk) ∧
    (∀ m path pk, NewManager cfg fs gen = .ok m → cfg.PublicKeyPEM = none →
      cfg.PublicKeyPath = some path → loadPublicKeyFromFile fs path = .ok pk →
      m.publicKey = pk) ∧
    (cfg.GeneratorMode = false → cfg.PublicKeyPEM = none → cfg.PublicKeyPath = none →
      NewManager cfg fs gen = .error .noPublicKey) := by
  refine ⟨?_, ?_, ?_, ?_, ?_, ?_⟩
  · intro pemText sk hm hpem hp1 hp2 hparse
    constructor <;> simp [NewManager, hm, hpem, hp1, hp2, hparse, Except.map]
  · intro path sk hm hpem hpath hp1 hp2 hload
    constructor <;> simp [NewManager, hm, hpem, hpath, hp1, hp2, hload, Except.map]
  · intro hm hpem hpath hp1 hp2
    constructor <;> simp [NewManager, hm, hpem, hpath, hp1, hp2, Except.map]
  · intro m pemText pk hok hpem hparse
    unfold NewManager at hok
    rw [hpem] at hok
    simp only [hparse] at hok
    split at hok
    · simp at hok
    · injection hok with hok
      rw [← hok]
  · intro m path pk hok hpem hpath hload
    unfold NewManager at hok
    rw [hpem, hpath] at hok
    simp only [hload] at hok
    split at hok
    · simp at hok
    · injection hok with hok
      rw [← hok]
  · intro hm hp1 hp2
    simp [NewManager, hm, hp1, hp2]

/-- Witness for C6: supplied private PEM wins; fresh generation uses the
default 2048 size; a supplied public key — as PEM text or as a file path —
overrides the derived one; and a configuration with no keys at all fails
with the no-public-key error. -/
theorem newManager_key_resolution_witness :
    (NewManager { GeneratorMode := true, PrivateKeyPEM := some (.block (.pkcs1Priv ⟨9⟩)) }
        [] gen0).map Manager.privateKey = .ok (some ⟨9⟩) ∧
    (NewManager { GeneratorMode := true } [] gen0).map Manager.privateKey =
      .ok (some (gen0 DefaultKeySize)) ∧
    mgrPub7.publicKey = (⟨7⟩ : PublicKey) ∧
    mgrPubPath.publicKey = (⟨8⟩ : PublicKey) ∧
    NewManager {} [] gen0 = .error .noPublicKey := by
  refine ⟨?_, ?_, ?_, ?_, ?_⟩
  · exact ((newManager_key_resolution
      { GeneratorMode := true, PrivateKeyPEM := some (.block (.pkcs1Priv ⟨9⟩)) } [] gen0).1
      (.block (.pkcs1Priv ⟨9⟩)) ⟨9⟩ rfl rfl rfl rfl rfl).1
  · exact ((newManager_key_resolution { GeneratorMode := true } [] gen0).2.2.1
      rfl rfl rfl rfl rfl).1
  · exact (newManager_key_resolution cfgPub7 [] gen0).2.2.2.1 mgrPub7 _ ⟨7⟩ rfl rfl rfl
  · exact (newManager_key_resolution cfgPubPath fsPub gen0).2.2.2.2.1 mgrPubPath
      "pub.pem" ⟨8⟩ rfl rfl rfl rfl
  · exact (newManager_key_resolution {} [] gen0).2.2.2.2.2 rfl rfl rfl

/-! ## Claim C9 -/

/-- Claim C9: a manager constructed in validator-only mode holds a nil
private key, and `ExportPrivateKey`, `ExportKeys` and `SaveKeys` then
dereference it (`none` models the Go nil-pointer panic) instead of
returning an error value; the operations are safe exactly under the
precondition that the manager holds a private key. -/
theorem validator_mode_private_key_ops_panic (cfg : Config) (fs : KeyFS)
    (gen : Nat → PrivateKey) (m : Manager)
    (hmode : cfg.GeneratorMode = false)
    (hok : NewManager cfg fs gen = .ok m) :
    m.privateKey = none ∧
    m.ExportPrivateKey = none ∧
    m.ExportKeys = none ∧
    (∀ fs2 p q, m.SaveKeys fs2 p q = none) ∧
    (∀ m2 : Manager, m2.privateKey.isSome = true → m2.ExportPrivateKey.isSome = true) := by
  have hpriv : m.privateKey = none := by
    unfold NewManager at hok
    rw [hmode] at hok
    simp only [Bool.false_eq_true, if_false] at hok
    split at hok
    · simp at hok
    · simp at hok
    · injection hok with hok
      rw [← hok]
  refine ⟨hpriv, ?_, ?_, ?_, ?_⟩
  · simp [Manager.ExportPrivateKey, x509MarshalPKCS1PrivateKey, hpriv]
  · simp [Manager.ExportKeys, Manager.ExportPrivateKey, x509MarshalPKCS1PrivateKey, hpriv]
  · intro fs2 p q
    simp [Manager.SaveKeys, Manager.ExportPrivateKey, x509MarshalPKCS1PrivateKey, hpriv]
  · intro m2 h2
    cases hk : m2.privateKey with
    | none => rw [hk] at h2; exact nomatch h2
    | some sk => simp [Manager.ExportPrivateKey, x509MarshalPKCS1PrivateKey, hk]

/-- Witness for C9: the validator-only manager `mgrVal` (built by
`NewManager` from a public-key-only configuration) panics on all three
private-key operations. -/
theorem validator_mode_private_key_ops_panic_witness :
    mgrVal.privateKey = none ∧
    mgrVal.ExportPrivateKey = none ∧
    mgrVal.ExportKeys = none ∧
    mgrVal.SaveKeys [] "priv.pem" "pub.pem" = none := by
  have h := validator_mode_private_key_ops_panic
    { PublicKeyPEM := some (.block (.pkixPub (.rsa ⟨7⟩))) } [] gen0 mgrVal rfl rfl
  exact ⟨h.1, h.2.1, h.2.2.1, h.2.2.2.1 [] "priv.pem" "pub.pem"⟩

end Licenser
